import Mathlib

/-
Verification of the tick-ingestion engine (sub_server):
a shallow embedding of `sub_server/collectors/tick_collector.py` (TickCollector)
and `sub_server/api/websocket_client.py` (KiwoomWebSocket), with the persistence
sink (`TickStorageService.bulk_insert_ticks`) abstracted as a boolean outcome and
every batch actually written recorded in an output list.

Time is modelled as wall-clock seconds (`Nat`); `datetime.now()` becomes an
explicit `now` argument to each operation that reads the clock.  Background
threads (periodic flush, websocket monitor, polling loop) are modelled by
counters recording how many such threads have been spawned, plus explicit step
functions for one iteration of a thread's loop body.  The non-reentrant
`threading.Lock` guarding the buffer is modelled explicitly, from the point of
view of the single thread executing a call path: acquiring it while this same
thread already holds it blocks forever.
-/

/- Ownership of `buffer_lock` from the perspective of the executing thread. -/
inductive LockOwner
  | nobody
  | me
deriving DecidableEq

/-- Model of `threading.Lock().acquire()` on a non-reentrant lock, from the executing
thread's point of view: succeeds if free, blocks forever (`none`) if this same
thread already holds it. -/
def acquire : LockOwner → Option LockOwner
  | LockOwner.nobody => some LockOwner.me
  | LockOwner.me => none

/-- One normalized trade update, the dict built in
`KiwoomWebSocket._on_message` (0B frames) and in the polling loop.  The Python
`change_rate` is a float parsed from a decimal string; it is stored and never
computed with, so it is modelled exactly as a rational.  The dict key `open` is
rendered `open_price` (`open` is reserved in Lean); it is the same field the
sink stores in the `open_price` column. -/
structure Tick where
  stock_code : String
  time : String
  price : Int
  volume : Int
  change_rate : Rat
  high : Int
  low : Int
  open_price : Int
  accumulated_volume : Int
deriving DecidableEq

/-- The `collection_mode` field: `'websocket'` or `'polling'`. -/
inductive Mode
  | websocket
  | polling
deriving DecidableEq

/-- Behavioral state of `KiwoomWebSocket` (token/url omitted: they never affect
control flow).  `callbacks` models the keys of the callback dict (re-assignment
of an existing key leaves membership unchanged, which is all that is ever
observed); `closed` records that `close()` was called. -/
structure KiwoomWebSocket where
  is_connected : Bool
  reconnect_attempts : Nat
  max_reconnect_attempts : Nat
  subscribed_stocks : List String
  callbacks : List String
  closed : Bool
deriving DecidableEq

/-- Fields set by `KiwoomWebSocket.__init__`. -/
def KiwoomWebSocket.init : KiwoomWebSocket :=
  { is_connected := false
    reconnect_attempts := 0
    max_reconnect_attempts := 10
    subscribed_stocks := []
    callbacks := []
    closed := false }

/-- Python `subscribe_tick(stock_codes, callback)`: no-op when not connected;
otherwise registers a callback key `"0B:"++code` per code when a callback is
supplied, then **replaces** `subscribed_stocks` with `stock_codes` and sends
one REG control frame listing exactly `stock_codes`.  The second component is
the list of REG frames sent (each frame = its code list). -/
def KiwoomWebSocket.subscribe_tick (ws : KiwoomWebSocket) (stock_codes : List String)
    (has_callback : Bool) : KiwoomWebSocket × List (List String) :=
  if ws.is_connected = false then (ws, [])
  else
    let ws1 :=
      if has_callback then
        { ws with callbacks := ws.callbacks ++ stock_codes.map (fun c => "0B:" ++ c) }
      else ws
    ({ ws1 with subscribed_stocks := stock_codes }, [stock_codes])

/-- Python `_on_open`: marks connected, zeroes the reconnect counter, and — when
`subscribed_stocks` is non-empty — re-issues `subscribe_tick` for it (with
callback `None`). -/
def KiwoomWebSocket.on_open (ws : KiwoomWebSocket) : KiwoomWebSocket × List (List String) :=
  let ws1 := { ws with is_connected := true, reconnect_attempts := 0 }
  if ws1.subscribed_stocks = [] then (ws1, [])
  else ws1.subscribe_tick ws1.subscribed_stocks false

/-- Python `connect()`: starts `run_forever` in a daemon thread and waits up to 5 s
for `is_connected`.  `ok` abstracts whether the handshake succeeds within the
wait window (i.e. whether `_on_open` fires). -/
def KiwoomWebSocket.connect (ws : KiwoomWebSocket) (ok : Bool) :
    KiwoomWebSocket × List (List String) :=
  if ok then ws.on_open else (ws, [])

/-- Python `_reconnect()`: once `reconnect_attempts` has reached
`max_reconnect_attempts` it only logs `"최대 재연결 시도 초과"` and returns —
no retry, no state change, no signal to any other component.  Below the cap it
sleeps (backoff), increments the counter and calls `connect()` again, whose
success is abstracted by `ok`. -/
def KiwoomWebSocket.reconnect (ws : KiwoomWebSocket) (ok : Bool) :
    KiwoomWebSocket × List (List String) :=
  if ws.max_reconnect_attempts ≤ ws.reconnect_attempts then (ws, [])
  else
    KiwoomWebSocket.connect { ws with reconnect_attempts := ws.reconnect_attempts + 1 } ok

/-- Python `_on_close`: clears `is_connected` and calls `_reconnect()`. -/
def KiwoomWebSocket.on_close (ws : KiwoomWebSocket) (reconnect_ok : Bool) :
    KiwoomWebSocket × List (List String) :=
  KiwoomWebSocket.reconnect { ws with is_connected := false } reconnect_ok

/-- Python `close()`. -/
def KiwoomWebSocket.close (ws : KiwoomWebSocket) : KiwoomWebSocket :=
  { ws with closed := true }

/-- Structured result dict returned by `add_stock` / `remove_stock`
(`{'success', 'message', 'stock_name'?}`); `stock_name` is absent from
`remove_stock`'s dict, hence optional. -/
structure StockOpResult where
  success : Bool
  message : String
  stock_name : Option String
deriving DecidableEq

/-- Dict read `stock_info.get(k, dflt)` on the `{code: name}` dict, modelled as an
association list. -/
def infoGet (m : List (String × String)) (k dflt : String) : String :=
  match m.find? (fun p => p.1 == k) with
  | some p => p.2
  | none => dflt

/-- Dict write `stock_info[k] = v` (dict assignment: overwrite or append). -/
def infoSet (m : List (String × String)) (k v : String) : List (String × String) :=
  if m.any (fun p => p.1 == k) then m.map (fun p => if p.1 == k then (k, v) else p)
  else m ++ [(k, v)]

/-- Dict removal `stock_info.pop(k, None)`. -/
def infoErase (m : List (String × String)) (k : String) : List (String × String) :=
  m.filter (fun p => p.1 != k)

/-- State of `TickCollector`.  `flush_threads`, `monitor_threads` and
`polling_threads` count the daemon threads spawned by `_start_periodic_flush`,
`_start_websocket_monitor` and the polling loop of `_start_polling_mode`;
`storage_closed` records `storage.close()`. -/
structure TickCollector where
  buffer : List Tick
  buffer_size : Nat
  flush_interval : Nat
  is_running : Bool
  tick_count : Nat
  start_time : Option Nat
  stock_codes : List String
  stock_info : List (String × String)
  collection_mode : Mode
  polling_interval : Nat
  websocket_timeout : Nat
  websocket_failure_count : Nat
  max_websocket_failures : Nat
  last_tick_time : Option Nat
  ws_client : Option KiwoomWebSocket
  flush_threads : Nat
  monitor_threads : Nat
  polling_threads : Nat
  storage_closed : Bool
deriving DecidableEq

/-- Python `TickCollector.__init__` with the environment-variable defaults
(`TICK_BUFFER_SIZE=10000`, `FLUSH_INTERVAL=10`, `POLLING_INTERVAL=2`),
`websocket_timeout = 15`, `max_websocket_failures = 3`. -/
def TickCollector.init : TickCollector :=
  { buffer := []
    buffer_size := 10000
    flush_interval := 10
    is_running := false
    tick_count := 0
    start_time := none
    stock_codes := []
    stock_info := []
    collection_mode := Mode.websocket
    polling_interval := 2
    websocket_timeout := 15
    websocket_failure_count := 0
    max_websocket_failures := 3
    last_tick_time := none
    ws_client := none
    flush_threads := 0
    monitor_threads := 0
    polling_threads := 0
    storage_closed := false }

/-- Python `_flush()` as executed by a thread whose ownership of `buffer_lock` is
`lock`.  Past the empty-buffer guard it enters `with self.buffer_lock:` — on a
non-reentrant lock this blocks forever (`none`) if the executing thread already
holds it.  Otherwise it swaps the buffer out and calls
`storage.bulk_insert_ticks(data_to_save)`; `sink_ok` abstracts whether that
bulk insert commits or raises, a raise being caught by the surrounding
`except` (logged only) with the copied batch simply dropped.  The second
component lists the batches actually written to the sink. -/
def TickCollector.flushWith (lock : LockOwner) (c : TickCollector) (sink_ok : Bool) :
    Option (TickCollector × List (List Tick)) :=
  if c.buffer = [] then some (c, [])
  else
    match acquire lock with
    | none => none
    | some _ =>
      let data_to_save := c.buffer
      let c1 := { c with buffer := [] }
      if sink_ok then some (c1, [data_to_save]) else some (c1, [])

/-- Python `_flush()` as executed by a thread that does not hold `buffer_lock`
(the periodic-flush thread and `stop()`); same code as `flushWith` with a free
lock, proved to agree with it below. -/
def TickCollector.flushNow (c : TickCollector) (sink_ok : Bool) :
    TickCollector × List (List Tick) :=
  if c.buffer = [] then (c, [])
  else
    let data_to_save := c.buffer
    let c1 := { c with buffer := [] }
    if sink_ok then (c1, [data_to_save]) else (c1, [])

/-- Python `on_tick_received(tick_data)`: takes `buffer_lock`, appends, bumps
`tick_count`, stamps `last_tick_time`, and — still holding the lock — calls
`self._flush()` when the buffer has reached `buffer_size`.  `none` means the
call never returns (the executing thread blocks forever). -/
def TickCollector.on_tick_received (c : TickCollector) (tick_data : Tick) (now : Nat)
    (sink_ok : Bool) : Option (TickCollector × List (List Tick)) :=
  match acquire LockOwner.nobody with
  | none => none
  | some lockHeld =>
    let c1 := { c with
      buffer := c.buffer ++ [tick_data]
      tick_count := c.tick_count + 1
      last_tick_time := some now }
    if c1.buffer_size ≤ c1.buffer.length then
      TickCollector.flushWith lockHeld c1 sink_ok
    else
      some (c1, [])

/-- Python `_start_periodic_flush()`: spawns one more flush thread. -/
def TickCollector.start_periodic_flush (c : TickCollector) : TickCollector :=
  { c with flush_threads := c.flush_threads + 1 }

/-- Python `_start_polling_mode()`: sets the running flag, the polling mode, resets
`start_time` to now and `tick_count` to 0, starts a (further) periodic-flush
thread and the polling thread. -/
def TickCollector.start_polling_mode (c : TickCollector) (now : Nat) : TickCollector :=
  let c1 := { c with
    is_running := true
    collection_mode := Mode.polling
    start_time := some now
    tick_count := 0 }
  let c2 := c1.start_periodic_flush
  { c2 with polling_threads := c2.polling_threads + 1 }

/-- Python `_switch_to_polling_mode()`: no-op when already polling; otherwise closes
and drops the websocket client, sets the mode to polling and calls
`_start_polling_mode()`. -/
def TickCollector.switch_to_polling_mode (c : TickCollector) (now : Nat) : TickCollector :=
  if c.collection_mode = Mode.polling then c
  else
    let c1 :=
      match c.ws_client with
      | some _ => { c with ws_client := none }
      | none => c
    TickCollector.start_polling_mode { c1 with collection_mode := Mode.polling } now

/-- One iteration of `monitor_job` in `_start_websocket_monitor` (executed
after its 10 s sleep): re-checks the loop guard
(`is_running and collection_mode == 'websocket'`), then the connect-failure
count against `max_websocket_failures`, then — only when `last_tick_time` is
set — the elapsed seconds since the last tick against `websocket_timeout`
(strict `>`).  Either trigger calls `_switch_to_polling_mode()` and exits the
loop. -/
def TickCollector.monitor_check (c : TickCollector) (now : Nat) : TickCollector :=
  if c.is_running = true ∧ c.collection_mode = Mode.websocket then
    if c.max_websocket_failures ≤ c.websocket_failure_count then
      c.switch_to_polling_mode now
    else
      match c.last_tick_time with
      | some t =>
        if c.websocket_timeout < now - t then c.switch_to_polling_mode now else c
      | none => c
  else c

/-- Python `start(stock_codes, stock_info)`: warns and returns when already running.
Otherwise stores the instrument set, builds a fresh `KiwoomWebSocket` and
connects it (`connect_ok` abstracts whether `is_connected` holds after the 2 s
wait); on failure falls back immediately to `_start_polling_mode()`; on success
subscribes, marks running in websocket mode, resets the counters and stamps,
and starts the periodic-flush and monitor threads.  The second component is
the Python return value: every path executes a bare `return`, so it is always
`none` — there is no structured result. -/
def TickCollector.start (c : TickCollector) (stock_codes : List String)
    (stock_info : List (String × String)) (connect_ok : Bool) (now : Nat) :
    TickCollector × Option StockOpResult :=
  if c.is_running = true then (c, none)
  else
    let c1 := { c with stock_codes := stock_codes, stock_info := stock_info }
    let ws1 := (KiwoomWebSocket.init.connect connect_ok).1
    let c2 := { c1 with ws_client := some ws1 }
    if ws1.is_connected = false then (c2.start_polling_mode now, none)
    else
      let ws2 := (ws1.subscribe_tick stock_codes true).1
      let c3 := { c2 with
        ws_client := some ws2
        is_running := true
        collection_mode := Mode.websocket
        start_time := some now
        tick_count := 0
        last_tick_time := some now }
      let c4 := c3.start_periodic_flush
      ({ c4 with monitor_threads := c4.monitor_threads + 1 }, none)

/-- Python `stop()`: returns at once when not running; otherwise clears the running
flag, runs a final `_flush()` (the stopping thread holds no lock), closes the
websocket client if present, and closes the storage connection.  The second
component lists the batches written by the final flush. -/
def TickCollector.stop (c : TickCollector) (sink_ok : Bool) :
    TickCollector × List (List Tick) :=
  if c.is_running = false then (c, [])
  else
    let c1 := { c with is_running := false }
    let flushed := c1.flushNow sink_ok
    let c2 := flushed.1
    let c3 :=
      match c2.ws_client with
      | some ws => { c2 with ws_client := some ws.close }
      | none => c2
    ({ c3 with storage_closed := true }, flushed.2)

/-- Python `add_stock(stock_code, stock_name)`: rejects a code already collected with
a structured failure; otherwise resolves the display name (`lookup_name`
abstracts the `get_current_price` lookup: `some n` when it returns
`return_code 0` with `stk_nm = n`, `none` when it fails or raises — the code
itself is then used), appends to `stock_codes`/`stock_info`, and — in
websocket mode with a connected client — subscribes the single code.  The
market-type lookup, stock-master insert and Redis save are each wrapped in
their own `try/except` and touch no collector state, so they are not modelled;
no path raises.  Third component: REG frames sent. -/
def TickCollector.add_stock (c : TickCollector) (stock_code : String)
    (stock_name : Option String) (lookup_name : Option String) :
    TickCollector × StockOpResult × List (List String) :=
  if stock_code ∈ c.stock_codes then
    (c,
     { success := false
       message := "종목 " ++ stock_code ++ "는 이미 수집 중입니다"
       stock_name := some (infoGet c.stock_info stock_code stock_code) },
     [])
  else
    let name :=
      match stock_name with
      | some n => n
      | none =>
        match lookup_name with
        | some n => n
        | none => stock_code
    let c1 := { c with
      stock_codes := c.stock_codes ++ [stock_code]
      stock_info := infoSet c.stock_info stock_code name }
    let subscribed :=
      if c1.collection_mode = Mode.websocket then
        match c1.ws_client with
        | some ws =>
          if ws.is_connected = true then
            let r := ws.subscribe_tick [stock_code] true
            ({ c1 with ws_client := some r.1 }, r.2)
          else (c1, [])
        | none => (c1, [])
      else (c1, [])
    (subscribed.1,
     { success := true
       message := "종목 " ++ stock_code ++ " (" ++ name ++ ") 추가 완료"
       stock_name := some name },
     subscribed.2)

/-- Python `remove_stock(stock_code)`: structured failure when the code is not
collected; otherwise removes it from `stock_codes` (first occurrence) and
`stock_info`.  The Redis removal is wrapped in `try/except` and touches no
collector state.  No unsubscribe is issued. -/
def TickCollector.remove_stock (c : TickCollector) (stock_code : String) :
    TickCollector × StockOpResult :=
  if stock_code ∈ c.stock_codes then
    let name := infoGet c.stock_info stock_code stock_code
    ({ c with
        stock_codes := c.stock_codes.erase stock_code
        stock_info := infoErase c.stock_info stock_code },
     { success := true
       message := "종목 " ++ stock_code ++ " (" ++ name ++ ") 제거 완료"
       stock_name := none })
  else
    (c,
     { success := false
       message := "종목 " ++ stock_code ++ "는 수집 중이 아닙니다"
       stock_name := none })

/-- The dict returned by `get_stats()`.  The key `buffer_size` of that dict
holds `len(self.buffer)` (not the capacity); it is rendered `buffer_len` here
to avoid clashing with the capacity field.  `ticks_per_second` is a float in
Python (`tick_count / elapsed`); it is modelled exactly as a rational. -/
structure Stats where
  is_running : Bool
  collection_mode : Mode
  tick_count : Nat
  elapsed_seconds : Nat
  ticks_per_second : Rat
  buffer_len : Nat
  stock_count : Nat
deriving DecidableEq

/-- Python `get_stats()`. -/
def TickCollector.get_stats (c : TickCollector) (now : Nat) : Stats :=
  let elapsed : Nat :=
    match c.start_time with
    | some t => now - t
    | none => 0
  { is_running := c.is_running
    collection_mode := c.collection_mode
    tick_count := c.tick_count
    elapsed_seconds := elapsed
    ticks_per_second := if 0 < elapsed then (c.tick_count : Rat) / (elapsed : Rat) else 0
    buffer_len := c.buffer.length
    stock_count := c.stock_codes.length }

/-- Effect on the collector of the websocket thread running `_on_close` (and
hence `_reconnect`) on the owned client: those handlers reference only the
`KiwoomWebSocket` object — `TickCollector` registers no callback for them and
none of its fields are touched. -/
def TickCollector.on_ws_close (c : TickCollector) (reconnect_ok : Bool) : TickCollector :=
  match c.ws_client with
  | some ws => { c with ws_client := some (ws.on_close reconnect_ok).1 }
  | none => c

/- Concrete fixtures used by closed theorems and witnesses. -/

/-- Sample tick (Samsung Electronics). -/
def tickA : Tick :=
  { stock_code := "005930", time := "093001", price := 70000, volume := 10
    change_rate := 35 / 100, high := 70100, low := 69900, open_price := 69950
    accumulated_volume := 1000 }

/-- Sample tick (SK hynix). -/
def tickB : Tick :=
  { stock_code := "000660", time := "093002", price := 180000, volume := 5
    change_rate := -12 / 100, high := 181000, low := 179000, open_price := 180500
    accumulated_volume := 400 }

/-- Sample tick (Kakao). -/
def tickC : Tick :=
  { stock_code := "035720", time := "093003", price := 45000, volume := 20
    change_rate := 0, high := 45500, low := 44800, open_price := 45000
    accumulated_volume := 900 }

/-- A connected websocket client as left by a successful `start`. -/
def wsRun : KiwoomWebSocket :=
  { is_connected := true, reconnect_attempts := 0, max_reconnect_attempts := 10
    subscribed_stocks := ["005930"], callbacks := ["0B:005930"], closed := false }

/- Helper lemmas shared by several proofs. -/

/-- Whatever the starting state, `_switch_to_polling_mode` leaves the mode at
polling. -/
theorem switch_mode_polling (c : TickCollector) (now : Nat) :
    (c.switch_to_polling_mode now).collection_mode = Mode.polling := by
  unfold TickCollector.switch_to_polling_mode TickCollector.start_polling_mode
    TickCollector.start_periodic_flush
  split
  · assumption
  · split <;> rfl

/-- C1: the spec says a capacity-reaching `Append` flushes synchronously within
the same call and returns; in the code, `on_tick_received` still holds the
non-reentrant `buffer_lock` when it calls `_flush()`, whose
`with self.buffer_lock:` then blocks forever.  With capacity 2: the first
append (below capacity) returns normally, while the append that reaches
capacity deadlocks (`none`) instead of flushing and returning. -/
theorem C1_capacity_append_deadlocks :
    TickCollector.on_tick_received { TickCollector.init with buffer_size := 2 } tickA 0 true
      = some ({ TickCollector.init with
                  buffer_size := 2, buffer := [tickA], tick_count := 1
                  last_tick_time := some 0 }, [])
  ∧ TickCollector.on_tick_received
      { TickCollector.init with
          buffer_size := 2, buffer := [tickA], tick_count := 1, last_tick_time := some 0 }
      tickB 5 true = none := by
  constructor
  · rfl
  · rfl

/-- C2: a flush whose bulk write fails returns normally (the exception is
caught and logged), discards the swapped-out batch (nothing written, nothing
re-queued: the buffer is left empty), and this agrees with the locked flush
path entered with a free lock; a successful flush writes the whole buffered
batch; and whenever an append returns, every tick previously buffered plus the
appended one is accounted for either in the flushed output or in the buffer —
the buffer drops ticks in no other way. -/
theorem C2_flush_failure_swallowed (c : TickCollector) (t : Tick) (now : Nat) :
    (c.flushNow false).1.buffer = []
  ∧ (c.flushNow false).2 = []
  ∧ (c.flushNow true).2 = (if c.buffer = [] then [] else [c.buffer])
  ∧ TickCollector.flushWith LockOwner.nobody c false = some (c.flushNow false)
  ∧ (match c.on_tick_received t now true with
     | none => True
     | some r => r.2.flatten ++ r.1.buffer = c.buffer ++ [t]) := by
  refine ⟨?_, ?_, ?_, ?_, ?_⟩
  · by_cases hb : c.buffer = [] <;> simp [TickCollector.flushNow, hb]
  · by_cases hb : c.buffer = [] <;> simp [TickCollector.flushNow, hb]
  · by_cases hb : c.buffer = [] <;> simp [TickCollector.flushNow, hb]
  · by_cases hb : c.buffer = [] <;>
      simp [TickCollector.flushNow, TickCollector.flushWith, acquire, hb]
  · have hne : c.buffer ++ [t] ≠ [] := by simp
    simp only [TickCollector.on_tick_received, acquire]
    split
    · trivial
    · rename_i r heq
      split at heq
      · simp [TickCollector.flushWith, hne, acquire] at heq
      · obtain rfl : _ = r := Option.some.inj heq
        simp

/-- C3: while running in websocket mode, a connect-failure counter at or above
`max_websocket_failures` (default 3) makes the very next monitor check switch
the mode to polling; and with a websocket whose connect always fails, the
collector is already in polling mode by (and hence after) the monitor's next
check — the initial-start fallback fires immediately and the monitor never
reverts a polling collector. -/
theorem C3_connect_failure_failover (c : TickCollector) (now : Nat)
    (hrun : c.is_running = true) (hmode : c.collection_mode = Mode.websocket)
    (hcnt : c.max_websocket_failures ≤ c.websocket_failure_count) :
    (c.monitor_check now).collection_mode = Mode.polling
  ∧ ∀ codes info now0 now1,
      (TickCollector.init.start codes info false now0).1.collection_mode = Mode.polling
    ∧ ((TickCollector.init.start codes info false now0).1.monitor_check now1).collection_mode
        = Mode.polling := by
  constructor
  · simp [TickCollector.monitor_check, hrun, hmode, hcnt, switch_mode_polling]
  · intro codes info now0 now1
    exact ⟨rfl, rfl⟩

/-- Witness for C3 at a concrete collector with the counter at the threshold. -/
theorem C3_witness :
    ({ TickCollector.init with
        is_running := true, websocket_failure_count := 3 }.monitor_check 10).collection_mode
      = Mode.polling
  ∧ ((TickCollector.init.start ["005930"] [] false 0).1.collection_mode = Mode.polling
    ∧ ((TickCollector.init.start ["005930"] [] false 0).1.monitor_check 10).collection_mode
        = Mode.polling) :=
  ⟨(C3_connect_failure_failover
      { TickCollector.init with is_running := true, websocket_failure_count := 3 }
      10 rfl rfl (by decide)).1,
   (C3_connect_failure_failover
      { TickCollector.init with is_running := true, websocket_failure_count := 3 }
      10 rfl rfl (by decide)).2 ["005930"] [] 0 10⟩

/-- C4: while running in websocket mode with the failure counter below its
threshold, the staleness trigger is never evaluated while `last_tick_time` is
unset (the check leaves the collector untouched); with a recorded last tick it
does not fire while the elapsed seconds are within `websocket_timeout`
(default 15); and at any monitor check where the elapsed seconds exceed the
timeout, the mode switches to polling — i.e. within the one 10 s check cycle
that first sees the timeout exceeded, and never before. -/
theorem C4_staleness_failover (c : TickCollector) (now t : Nat)
    (hrun : c.is_running = true) (hmode : c.collection_mode = Mode.websocket)
    (hcnt : c.websocket_failure_count < c.max_websocket_failures) :
    (c.last_tick_time = none → c.monitor_check now = c)
  ∧ (c.last_tick_time = some t → now - t ≤ c.websocket_timeout → c.monitor_check now = c)
  ∧ (c.last_tick_time = some t → c.websocket_timeout < now - t →
      (c.monitor_check now).collection_mode = Mode.polling) := by
  have hc : ¬ c.max_websocket_failures ≤ c.websocket_failure_count := Nat.not_le.mpr hcnt
  refine ⟨?_, ?_, ?_⟩
  · intro hl
    simp [TickCollector.monitor_check, hrun, hmode, hc, hl]
  · intro hl hle
    simp [TickCollector.monitor_check, hrun, hmode, hc, hl, Nat.not_lt.mpr hle]
  · intro hl hlt
    simp [TickCollector.monitor_check, hrun, hmode, hc, hl, hlt, switch_mode_polling]

/-- Witness for C4 at a concrete collector: connected at time 0, silent since,
checked at 12 s (≤ 15: no switch) and at 30 s (> 15: switch). -/
theorem C4_witness :
    (({ TickCollector.init with
          is_running := true, last_tick_time := some 0 } : TickCollector).last_tick_time = some 0 →
        12 - 0 ≤ ({ TickCollector.init with
          is_running := true, last_tick_time := some 0 } : TickCollector).websocket_timeout →
        ({ TickCollector.init with
          is_running := true, last_tick_time := some 0 } : TickCollector).monitor_check 12
          = { TickCollector.init with is_running := true, last_tick_time := some 0 })
  ∧ (({ TickCollector.init with
          is_running := true, last_tick_time := some 0 } : TickCollector).last_tick_time = some 0 →
        ({ TickCollector.init with
          is_running := true, last_tick_time := some 0 } : TickCollector).websocket_timeout < 30 - 0 →
        (({ TickCollector.init with
          is_running := true, last_tick_time := some 0 } : TickCollector).monitor_check 30).collection_mode
          = Mode.polling) :=
  ⟨(C4_staleness_failover
      { TickCollector.init with is_running := true, last_tick_time := some 0 }
      12 0 rfl rfl (by decide)).2.1,
   (C4_staleness_failover
      { TickCollector.init with is_running := true, last_tick_time := some 0 }
      30 0 rfl rfl (by decide)).2.2⟩

/-- Collector after `start(["005930","000660"])` in websocket mode followed by
`add_stock("035720", "카카오")` — three tracked instruments, the last added
via the single-code subscription path. -/
def cC5 : TickCollector :=
  ((TickCollector.init.start ["005930", "000660"] [] true 0).1.add_stock
    "035720" (some "카카오") none).1

/-- The websocket client held by `cC5`: `subscribe_tick(["035720"])` from
`add_stock` has overwritten `subscribed_stocks`. -/
def wsC5 : KiwoomWebSocket :=
  { is_connected := true, reconnect_attempts := 0, max_reconnect_attempts := 10
    subscribed_stocks := ["035720"]
    callbacks := ["0B:005930", "0B:000660", "0B:035720"], closed := false }

/-- C5 counterexample: with three tracked codes, the set re-subscribed on a
disconnect-and-successful-reconnect is only `["035720"]` — the argument of the
most recent `subscribe_tick` call — and in particular does not contain the
tracked code `"005930"`: it does not equal the full tracked set. -/
theorem C5_counterexample :
    cC5.stock_codes = ["005930", "000660", "035720"]
  ∧ cC5.ws_client = some wsC5
  ∧ (wsC5.on_close true).2 = [["035720"]]
  ∧ "005930" ∉ (wsC5.on_close true).2.flatten := by decide

/-- C5 amended: on every successful (re)connect the session re-issues a single
subscription request carrying exactly the codes of the most recent
`Subscribe` call — `subscribed_stocks` is overwritten, not unioned — so after
a single-code `Subscribe` issued by `AddInstrument` while streaming, only that
code is re-subscribed on reconnect, not the full tracked set. -/
theorem C5_resubscribes_only_last (ws : KiwoomWebSocket) (codes : List String) (hb : Bool)
    (hconn : ws.is_connected = true) (hne : codes ≠ [])
    (hatt : ws.reconnect_attempts < ws.max_reconnect_attempts) :
    ((ws.subscribe_tick codes hb).1).subscribed_stocks = codes
  ∧ (((ws.subscribe_tick codes hb).1).on_close true).2 = [codes] := by
  have hcap : ¬ ws.max_reconnect_attempts ≤ ws.reconnect_attempts := Nat.not_le.mpr hatt
  cases hb <;>
    simp [KiwoomWebSocket.subscribe_tick, KiwoomWebSocket.on_close,
      KiwoomWebSocket.reconnect, KiwoomWebSocket.connect, KiwoomWebSocket.on_open,
      hconn, hne, hcap]

/-- Witness for C5's amended theorem at a concrete connected client. -/
theorem C5_witness :
    ((wsRun.subscribe_tick ["035720"] true).1).subscribed_stocks = ["035720"]
  ∧ (((wsRun.subscribe_tick ["035720"] true).1).on_close true).2 = [["035720"]] :=
  C5_resubscribes_only_last wsRun ["035720"] true rfl (by decide) (by decide)

/-- A websocket client whose reconnection attempts have reached the cap. -/
def wsC6 : KiwoomWebSocket :=
  { is_connected := true, reconnect_attempts := 10, max_reconnect_attempts := 10
    subscribed_stocks := ["005930"], callbacks := ["0B:005930"], closed := false }

/-- A running websocket-mode collector owning `wsC6`. -/
def cC6 : TickCollector :=
  { TickCollector.init with
      is_running := true, start_time := some 0, last_tick_time := some 0
      stock_codes := ["005930"], ws_client := some wsC6
      flush_threads := 1, monitor_threads := 1 }

/-- C6 counterexample: when the session's reconnection attempts have reached
the cap (10), a disconnect is handled by logging and returning — even a
reconnect that would succeed is not attempted — and the collector is neither
notified nor switched: its mode is still websocket (not polling) and its
connect-failure counter is still 0, so no hard transport failure was surfaced
and no immediate fallback was triggered. -/
theorem C6_counterexample :
    (cC6.on_ws_close true).collection_mode = Mode.websocket
  ∧ ¬ (cC6.on_ws_close true).collection_mode = Mode.polling
  ∧ (cC6.on_ws_close true).websocket_failure_count = 0
  ∧ (cC6.on_ws_close true).ws_client = some { wsC6 with is_connected := false } := by decide

/-- C6 amended: once `reconnect_attempts` has reached the cap, the session
stops retrying (it is not silently retried further: the handler only clears
`is_connected` and sends nothing), and this is not surfaced to the collector —
its mode, running flag and connect-failure counter are unchanged, so no
immediate fallback to polling occurs; the collector leaves websocket mode only
when the independent staleness trigger fires later. -/
theorem C6_cap_gives_up_silently (c : TickCollector) (ws : KiwoomWebSocket) (ok : Bool)
    (hws : c.ws_client = some ws)
    (hcap : ws.max_reconnect_attempts ≤ ws.reconnect_attempts) :
    (ws.on_close ok).1 = { ws with is_connected := false }
  ∧ (ws.on_close ok).2 = []
  ∧ (c.on_ws_close ok).collection_mode = c.collection_mode
  ∧ (c.on_ws_close ok).websocket_failure_count = c.websocket_failure_count
  ∧ (c.on_ws_close ok).is_running = c.is_running
  ∧ (c.on_ws_close ok).ws_client = some { ws with is_connected := false } := by
  refine ⟨?_, ?_, ?_, ?_, ?_, ?_⟩ <;>
    simp [KiwoomWebSocket.on_close, KiwoomWebSocket.reconnect, hcap,
      TickCollector.on_ws_close, hws]

/-- Witness for C6's amended theorem at the concrete capped client. -/
theorem C6_witness :
    (wsC6.on_close true).1 = { wsC6 with is_connected := false }
  ∧ (wsC6.on_close true).2 = []
  ∧ (cC6.on_ws_close true).collection_mode = cC6.collection_mode
  ∧ (cC6.on_ws_close true).websocket_failure_count = cC6.websocket_failure_count
  ∧ (cC6.on_ws_close true).is_running = cC6.is_running
  ∧ (cC6.on_ws_close true).ws_client = some { wsC6 with is_connected := false } :=
  C6_cap_gives_up_silently cC6 wsC6 true rfl (by decide)

/-- C7: adding an untracked code succeeds with a structured success result and
grows the tracked count by exactly 1; adding a tracked code returns a
structured failure and leaves the whole collector unchanged; removing a
tracked code succeeds and shrinks the count by 1; removing an untracked code
returns a structured failure and leaves the collector unchanged.  All four
operations are total functions of the embedding (every fallible side call in
the source is wrapped in its own try/except), so none throws. -/
theorem C7_add_remove_semantics (c : TickCollector) (code : String) (nm lk : Option String) :
    (code ∉ c.stock_codes →
        (c.add_stock code nm lk).2.1.success = true
      ∧ (c.add_stock code nm lk).1.stock_codes.length = c.stock_codes.length + 1)
  ∧ (code ∈ c.stock_codes →
        (c.add_stock code nm lk).2.1.success = false
      ∧ (c.add_stock code nm lk).1 = c)
  ∧ (code ∈ c.stock_codes →
        (c.remove_stock code).2.success = true
      ∧ (c.remove_stock code).1.stock_codes.length + 1 = c.stock_codes.length)
  ∧ (code ∉ c.stock_codes →
        (c.remove_stock code).2.success = false
      ∧ (c.remove_stock code).1 = c) := by
  refine ⟨?_, ?_, ?_, ?_⟩
  · intro h
    unfold TickCollector.add_stock
    rw [if_neg h]
    refine ⟨rfl, ?_⟩
    dsimp only
    split
    · split
      · split
        · simp
        · simp
      · simp
    · simp
  · intro h
    unfold TickCollector.add_stock
    rw [if_pos h]
    exact ⟨rfl, rfl⟩
  · intro h
    unfold TickCollector.remove_stock
    rw [if_pos h]
    refine ⟨rfl, ?_⟩
    have hpos : 0 < c.stock_codes.length := List.length_pos_of_mem h
    rw [List.length_erase_of_mem h]
    omega
  · intro h
    unfold TickCollector.remove_stock
    rw [if_neg h]
    exact ⟨rfl, rfl⟩

/-- Collector tracking exactly `"005930"`, as after one successful add. -/
def c7a : TickCollector := (TickCollector.init.add_stock "005930" (some "삼성전자") none).1

/-- Witness for C7: the claim's four-step scenario on a fresh collector —
add succeeds (count 1), duplicate add fails (state unchanged), remove succeeds
(count 0), second remove fails (state unchanged). -/
theorem C7_witness :
    ((TickCollector.init.add_stock "005930" (some "삼성전자") none).2.1.success = true
   ∧ (TickCollector.init.add_stock "005930" (some "삼성전자") none).1.stock_codes.length
       = TickCollector.init.stock_codes.length + 1)
  ∧ ((c7a.add_stock "005930" none none).2.1.success = false
   ∧ (c7a.add_stock "005930" none none).1 = c7a)
  ∧ ((c7a.remove_stock "005930").2.success = true
   ∧ (c7a.remove_stock "005930").1.stock_codes.length + 1 = c7a.stock_codes.length)
  ∧ ((TickCollector.init.remove_stock "005930").2.success = false
   ∧ (TickCollector.init.remove_stock "005930").1 = TickCollector.init) :=
  ⟨(C7_add_remove_semantics TickCollector.init "005930" (some "삼성전자") none).1 (by decide),
   (C7_add_remove_semantics c7a "005930" none none).2.1 (by decide),
   (C7_add_remove_semantics c7a "005930" none none).2.2.1 (by decide),
   (C7_add_remove_semantics TickCollector.init "005930" none none).2.2.2 (by decide)⟩

/-- C8: stopping a running collector holding a non-empty buffer (its
`tick_count` equal to the ticks appended) clears the running flag, performs
exactly one bulk insert, whose batch is the whole buffer, before returning,
leaves the buffer empty, reports `tick_count = n` in the stats afterwards,
closes the storage connection and the websocket session when one is active;
and stopping a collector that is not running returns immediately with no
write and no state change. -/
theorem C8_stop_final_flush (c : TickCollector) (now : Nat)
    (hrun : c.is_running = true) (hne : c.buffer ≠ [])
    (hcnt : c.tick_count = c.buffer.length) :
    (c.stop true).2 = [c.buffer]
  ∧ (c.stop true).2.length = 1
  ∧ (c.stop true).1.is_running = false
  ∧ (c.stop true).1.buffer = []
  ∧ ((c.stop true).1.get_stats now).tick_count = c.buffer.length
  ∧ (c.stop true).1.storage_closed = true
  ∧ (∀ ws, c.ws_client = some ws → (c.stop true).1.ws_client = some ws.close)
  ∧ (∀ (c0 : TickCollector) (ok : Bool), c0.is_running = false → c0.stop ok = (c0, [])) := by
  have hsafe : ∀ (c0 : TickCollector) (ok : Bool), c0.is_running = false → c0.stop ok = (c0, []) := by
    intro c0 ok h0
    simp [TickCollector.stop, h0]
  cases hcw : c.ws_client with
  | none =>
    refine ⟨?_, ?_, ?_, ?_, ?_, ?_, ?_, hsafe⟩
    case refine_7 =>
      intro ws hws
      cases hws
    all_goals
      simp [TickCollector.stop, TickCollector.flushNow, TickCollector.get_stats,
        hrun, hne, hcnt, hcw]
  | some ws =>
    refine ⟨?_, ?_, ?_, ?_, ?_, ?_, ?_, hsafe⟩
    case refine_7 =>
      intro ws' hws'
      obtain rfl : ws = ws' := by injection hws'
      simp [TickCollector.stop, TickCollector.flushNow, hrun, hne, hcw]
    all_goals
      simp [TickCollector.stop, TickCollector.flushNow, TickCollector.get_stats,
        hrun, hne, hcnt, hcw]

/-- A running collector with three buffered ticks, below capacity, and a live
websocket client. -/
def cC8 : TickCollector :=
  { TickCollector.init with
      is_running := true, buffer := [tickA, tickB, tickC], tick_count := 3
      start_time := some 0, last_tick_time := some 2, stock_codes := ["005930"]
      ws_client := some wsRun, flush_threads := 1, monitor_threads := 1 }

/-- Witness for C8 on `cC8` (3 buffered ticks): one bulk insert of size 3
before `stop` returns, stats `tick_count = 3`, both resources closed; plus the
never-started collector for the safety clause. -/
theorem C8_witness :
    (cC8.stop true).2 = [cC8.buffer]
  ∧ (cC8.stop true).2.length = 1
  ∧ (cC8.stop true).1.is_running = false
  ∧ (cC8.stop true).1.buffer = []
  ∧ ((cC8.stop true).1.get_stats 9).tick_count = cC8.buffer.length
  ∧ (cC8.stop true).1.storage_closed = true
  ∧ (cC8.stop true).1.ws_client = some wsRun.close
  ∧ TickCollector.init.stop true = (TickCollector.init, []) :=
  ⟨(C8_stop_final_flush cC8 9 rfl (by decide) (by decide)).1,
   (C8_stop_final_flush cC8 9 rfl (by decide) (by decide)).2.1,
   (C8_stop_final_flush cC8 9 rfl (by decide) (by decide)).2.2.1,
   (C8_stop_final_flush cC8 9 rfl (by decide) (by decide)).2.2.2.1,
   (C8_stop_final_flush cC8 9 rfl (by decide) (by decide)).2.2.2.2.1,
   (C8_stop_final_flush cC8 9 rfl (by decide) (by decide)).2.2.2.2.2.1,
   (C8_stop_final_flush cC8 9 rfl (by decide) (by decide)).2.2.2.2.2.2.1 wsRun rfl,
   (C8_stop_final_flush cC8 9 rfl (by decide) (by decide)).2.2.2.2.2.2.2
     TickCollector.init true rfl⟩

/-- A collector that is already running, with some accumulated state. -/
def cC9run : TickCollector :=
  { TickCollector.init with
      is_running := true, stock_codes := ["005930"], start_time := some 0
      tick_count := 7, flush_threads := 1, monitor_threads := 1
      ws_client := some wsRun }

/-- C9 counterexample: calling `start` on an already-running collector returns
`None` — the Python method has no non-bare `return` — which is exactly the
value a successful `start` on a fresh collector also returns; the caller
therefore receives no structured failure result distinguishing the rejected
call. -/
theorem C9_counterexample :
    (cC9run.start ["000660"] [] true 5).2 = none
  ∧ (TickCollector.init.start ["000660"] [] true 5).2 = none := by decide

/-- C9 amended: calling `start` while already running logs a warning and
returns immediately with no result value (`None`, indistinguishable from a
successful start's return) and leaves the collector state entirely unchanged —
mode, tracked set and count, buffer, tick count, websocket client, and thread
counters (no transport restarted, no threads spawned). -/
theorem C9_start_noop_when_running (c : TickCollector) (codes : List String)
    (info : List (String × String)) (ok : Bool) (now : Nat)
    (hrun : c.is_running = true) :
    c.start codes info ok now = (c, none) := by
  simp [TickCollector.start, hrun]

/-- Witness for C9's amended theorem at the concrete running collector. -/
theorem C9_witness : cC9run.start ["000660"] [] true 5 = (cC9run, none) :=
  C9_start_noop_when_running cC9run ["000660"] [] true 5 rfl

/-- C10: a failover switch out of websocket mode resets the cumulative tick
counter to 0 and the start time to the switch time — so stats taken afterwards
report the tick count, elapsed seconds and rate of the period since the switch
only — and it starts one additional periodic-flush thread (alongside the one
from `start`) plus the polling thread. -/
theorem C10_switch_resets_stats (c : TickCollector) (now now' : Nat)
    (hmode : c.collection_mode = Mode.websocket) :
    (c.switch_to_polling_mode now).tick_count = 0
  ∧ (c.switch_to_polling_mode now).start_time = some now
  ∧ (c.switch_to_polling_mode now).collection_mode = Mode.polling
  ∧ (c.switch_to_polling_mode now).flush_threads = c.flush_threads + 1
  ∧ (c.switch_to_polling_mode now).polling_threads = c.polling_threads + 1
  ∧ ((c.switch_to_polling_mode now).get_stats now').tick_count = 0
  ∧ ((c.switch_to_polling_mode now).get_stats now').elapsed_seconds = now' - now
  ∧ ((c.switch_to_polling_mode now).get_stats now').ticks_per_second = 0 := by
  have hnp : ¬ c.collection_mode = Mode.polling := by simp [hmode]
  cases hcw : c.ws_client with
  | none =>
    refine ⟨?_, ?_, ?_, ?_, ?_, ?_, ?_, ?_⟩ <;>
      simp [TickCollector.switch_to_polling_mode, TickCollector.start_polling_mode,
        TickCollector.start_periodic_flush, TickCollector.get_stats, hnp, hcw]
  | some ws =>
    refine ⟨?_, ?_, ?_, ?_, ?_, ?_, ?_, ?_⟩ <;>
      simp [TickCollector.switch_to_polling_mode, TickCollector.start_polling_mode,
        TickCollector.start_periodic_flush, TickCollector.get_stats, hnp, hcw]

/-- A collector as left by a successful websocket-mode `start` that has
ingested 500 ticks. -/
def cC10 : TickCollector :=
  { TickCollector.init with
      is_running := true, tick_count := 500, start_time := some 0
      last_tick_time := some 80, stock_codes := ["005930"]
      ws_client := some wsRun, flush_threads := 1, monitor_threads := 1 }

/-- Witness for C10: switching `cC10` at t = 100 and reading stats at t = 130
shows count 0, elapsed 30, rate 0, and a second flush thread. -/
theorem C10_witness :
    (cC10.switch_to_polling_mode 100).tick_count = 0
  ∧ (cC10.switch_to_polling_mode 100).start_time = some 100
  ∧ (cC10.switch_to_polling_mode 100).collection_mode = Mode.polling
  ∧ (cC10.switch_to_polling_mode 100).flush_threads = cC10.flush_threads + 1
  ∧ (cC10.switch_to_polling_mode 100).polling_threads = cC10.polling_threads + 1
  ∧ ((cC10.switch_to_polling_mode 100).get_stats 130).tick_count = 0
  ∧ ((cC10.switch_to_polling_mode 100).get_stats 130).elapsed_seconds = 130 - 100
  ∧ ((cC10.switch_to_polling_mode 100).get_stats 130).ticks_per_second = 0 :=
  C10_switch_resets_stats cC10 100 130 rfl
